import Mathlib

/-!
# Verification of the drive-ledger simulation/scoring core

Shallow embedding of the scoring and simulation functions of the
drive-ledger-api repository:

* `src/services/car-data.service.js` — Diagnostic Catalog
  (`getDiagnosticInfo`), per-point and batch reward
  (`getDataPointRewardValue`, `getDataBatchRewardValue`), efficiency score
  (`getVehicleEfficiencyScore`).
* `src/services/local-drive-simulator.service.js` — route profiles
  (`routes`), route-specific transformation (`modifyDataForRoute`), session
  start guard (`startSimulation`).
* `src/services/market-place.service.js` — data-type table (`dataTypes`)
  and valuation (`estimateDataValue`).

JavaScript numbers are modelled as exact rationals (`ℚ`); `toFixed(d)`
followed by `parseFloat` is modelled as rounding to `d` decimal places with
round-half-up (`roundTo`), and `Math.round` as the Mathlib `round`
(both are `⌊x + 1/2⌋`).  `Math.random()` draws and the `Math.sin` term of
the MOUNTAIN route are explicit rational parameters.  Fallible functions
return `Except String`.
-/

namespace DriveLedger

/-- `parseFloat(x.toFixed(d))`: round to `d` decimal places, half up
(as JS `Math.round`-style rounding; ties away from the floor). -/
def roundTo (d : ℕ) (x : ℚ) : ℚ := (round (x * 10 ^ d) : ℤ) / 10 ^ d

/-- JS `String.prototype.trim()`: strip whitespace from both ends
(structurally recursive so that concrete instances compute). -/
def jsTrim (s : String) : String :=
  ⟨((s.data.dropWhile Char.isWhitespace).reverse.dropWhile
      Char.isWhitespace).reverse⟩

/-- One telemetry sample (a row of the synthetic OBD data set), as consumed
by the scoring and transformation functions. -/
structure DataPoint where
  speed_kmph : ℚ
  engine_rpm : ℚ
  engine_temp_c : ℚ
  fuel_level_pct : ℚ
  lat : ℚ
  lon : ℚ
  dtc_code : String
  timestamp : String
  deriving Repr, DecidableEq

/-- A Diagnostic Catalog entry (the record values of `getDiagnosticInfo`). -/
structure DtcInfo where
  description : String
  severity : String
  impact : String
  rewardImpact : ℚ
  deriving Repr, DecidableEq

/-- `CarDataService.getDiagnosticInfo` (src/services/car-data.service.js
lines 161-184): static lookup of the three known trouble codes; `null`
(here `none`) for an empty or unknown code. -/
def getDiagnosticInfo (dtcCode : String) : Option DtcInfo :=
  if dtcCode = "P0420" then
    some { description := "Catalyst System Efficiency Below Threshold"
           severity := "Medium"
           impact := "May affect emissions and fuel efficiency"
           rewardImpact := -15 }
  else if dtcCode = "P0171" then
    some { description := "System Too Lean (Bank 1)"
           severity := "Medium"
           impact := "May cause rough idling and reduced fuel efficiency"
           rewardImpact := -10 }
  else if dtcCode = "P0300" then
    some { description := "Random/Multiple Cylinder Misfire Detected"
           severity := "High"
           impact := "Can damage catalytic converter if ignored"
           rewardImpact := -25 }
  else none

/-- `CarDataService.getDataPointRewardValue` (car-data.service.js lines
234-259).  The JS truthiness test `dataPoint.dtc_code &&
dataPoint.dtc_code.trim() !== ''` is the conjunction of nonemptiness of
the string and of its trim; `dtcInfo && dtcInfo.rewardImpact` requires the
lookup to succeed with a nonzero `rewardImpact`. -/
def getDataPointRewardValue (dataPoint : DataPoint) : ℚ :=
  let baseReward : ℚ := 0.01
  let baseReward :=
    if 40 ≤ dataPoint.speed_kmph ∧ dataPoint.speed_kmph ≤ 80 then
      baseReward * 1.2
    else baseReward
  let baseReward :=
    if 1500 ≤ dataPoint.engine_rpm ∧ dataPoint.engine_rpm ≤ 2500 then
      baseReward * 1.15
    else baseReward
  let baseReward :=
    if dataPoint.dtc_code ≠ "" ∧ jsTrim dataPoint.dtc_code ≠ "" then
      match getDiagnosticInfo dataPoint.dtc_code with
      | some dtcInfo =>
          if dtcInfo.rewardImpact ≠ 0 then
            baseReward * (1 + dtcInfo.rewardImpact / 100)
          else baseReward
      | none => baseReward
    else baseReward
  roundTo 4 baseReward

/-- `CarDataService.getDataBatchRewardValue` (car-data.service.js lines
261-275): accumulate the per-point rewards, apply the ×1.1 consistency
bonus when more than 10 points, round to 4 decimals; empty input ⇒ 0. -/
def getDataBatchRewardValue (dataPoints : List DataPoint) : ℚ :=
  if dataPoints.isEmpty then 0
  else
    let totalReward :=
      dataPoints.foldl (fun acc p => acc + getDataPointRewardValue p) 0
    let totalReward :=
      if dataPoints.length > 10 then totalReward * 1.1 else totalReward
    roundTo 4 totalReward

/-- JS `array.slice(-t)` for `t > 0`: the last `min t n` elements. -/
def takeLast (t : ℕ) (l : List DataPoint) : List DataPoint :=
  l.drop (l.length - t)

/-- `CarDataService.getVehicleEfficiencyScore` (car-data.service.js lines
211-232): over the last `timeframeMinutes` samples, score
`avgSpeed / (avgRPM/1000) * 10`, ×0.7 when any sample in the window has a
nonempty DTC, `Math.round`ed and clamped to `[0, 100]`; fewer than 5
samples ⇒ 0. -/
def getVehicleEfficiencyScore (dataPoints : List DataPoint)
    (timeframeMinutes : ℕ := 60) : ℤ :=
  if dataPoints.length < 5 then 0
  else
    let limitedDataPoints := takeLast timeframeMinutes dataPoints
    let avgRPM :=
      (limitedDataPoints.map (·.engine_rpm)).sum / limitedDataPoints.length
    let avgSpeed :=
      (limitedDataPoints.map (·.speed_kmph)).sum / limitedDataPoints.length
    let hasErrors :=
      limitedDataPoints.any (fun p => p.dtc_code ≠ "" && jsTrim p.dtc_code ≠ "")
    let score := avgSpeed / (avgRPM / 1000) * 10
    let score := if hasErrors then score * 0.7 else score
    min (max (round score) 0) 100

/-! ## Local drive simulator (src/services/local-drive-simulator.service.js) -/

/-- A Route Profile Table entry (`LocalDriveSimulator.routes` values,
local-drive-simulator.service.js lines 13-58). -/
structure Route where
  name : String
  description : String
  averageSpeed : ℚ
  maxSpeed : ℚ
  trafficDensity : String
  distance : ℚ
  estimatedTime : ℚ
  fuelConsumption : String
  elevationChange : String
  deriving Repr, DecidableEq

/-- `routes.URBAN`. -/
def routeURBAN : Route :=
  { name := "Urban City Drive"
    description := "Dense city traffic with stops and moderate speeds"
    averageSpeed := 35, maxSpeed := 60, trafficDensity := "high"
    distance := 12.5, estimatedTime := 25, fuelConsumption := "moderate"
    elevationChange := "low" }

/-- `routes.HIGHWAY`. -/
def routeHIGHWAY : Route :=
  { name := "Highway Cruise"
    description := "Fast highway driving with consistent speeds"
    averageSpeed := 85, maxSpeed := 110, trafficDensity := "low"
    distance := 45.0, estimatedTime := 35, fuelConsumption := "efficient"
    elevationChange := "moderate" }

/-- `routes.MOUNTAIN`. -/
def routeMOUNTAIN : Route :=
  { name := "Mountain Pass"
    description := "Winding roads with elevation changes and variable speeds"
    averageSpeed := 45, maxSpeed := 70, trafficDensity := "very low"
    distance := 28.0, estimatedTime := 40, fuelConsumption := "high"
    elevationChange := "high" }

/-- `routes.RURAL`. -/
def routeRURAL : Route :=
  { name := "Country Roads"
    description := "Relaxed driving through farmland and villages"
    averageSpeed := 55, maxSpeed := 80, trafficDensity := "very low"
    distance := 32.0, estimatedTime := 35, fuelConsumption := "moderate"
    elevationChange := "moderate" }

/-- `LocalDriveSimulator.routes[routeType]`: `none` for an unknown key. -/
def routes (routeType : String) : Option Route :=
  if routeType = "URBAN" then some routeURBAN
  else if routeType = "HIGHWAY" then some routeHIGHWAY
  else if routeType = "MOUNTAIN" then some routeMOUNTAIN
  else if routeType = "RURAL" then some routeRURAL
  else none

/-- The random inputs consumed by one `modifyDataForRoute` call:
`speedNoise`, `dtcRoll` and `dtcPick` are successive `Math.random()` draws
(each in `[0,1)` at runtime) and `sinNow` is the `Math.sin(Date.now()/5000)`
term of the MOUNTAIN branch (in `[-1,1]` at runtime).  They are left as
unconstrained rationals; theorems quantify over them. -/
structure RouteRng where
  speedNoise : ℚ
  dtcRoll : ℚ
  dtcPick : ℚ
  sinNow : ℚ
  deriving Repr, DecidableEq

/-- `LocalDriveSimulator.modifyDataForRoute`
(local-drive-simulator.service.js lines 160-238): clone the data point,
set route-adjusted speed / RPM / temperature / DTC per route branch, round
(speed to 2 decimals, RPM to nearest integer, temperature to 1 decimal),
then decrement fuel from the *input* fuel level by
`0.01 * factor * (rpm/2000)` with `factor = 0.9` iff the rounded adjusted
speed is strictly between 50 and 90, clamp at 0 and round to 2 decimals.
The clone (`{ ...dataPoint }`) is modelled by this being a pure function of
the input record. -/
def modifyDataForRoute (dataPoint : DataPoint) (routeType : String)
    (rng : RouteRng) : DataPoint :=
  let branch : ℚ × ℚ × ℚ × String :=
    if routeType = "URBAN" then
      let s := min (max 15 (dataPoint.speed_kmph * 0.6 + rng.speedNoise * 20 - 10))
        routeURBAN.maxSpeed
      (s, 1000 + s * 30, dataPoint.engine_temp_c,
        if rng.dtcRoll < 0.1 then
          (if rng.dtcPick < 0.7 then "P0420" else "P0171")
        else dataPoint.dtc_code)
    else if routeType = "HIGHWAY" then
      let s := min (max 70 (dataPoint.speed_kmph * 1.2 + rng.speedNoise * 10 - 5))
        routeHIGHWAY.maxSpeed
      (s, 1500 + s * 20, dataPoint.engine_temp_c,
        if rng.dtcRoll < 0.03 then "P0420" else dataPoint.dtc_code)
    else if routeType = "MOUNTAIN" then
      let s := min (max 20 (dataPoint.speed_kmph * 0.8 + rng.sinNow * 25))
        routeMOUNTAIN.maxSpeed
      (s, 2000 + s * 35, dataPoint.engine_temp_c * 1.1,
        if rng.dtcRoll < 0.07 then
          (if rng.dtcPick < 0.4 then "P0300" else "P0171")
        else dataPoint.dtc_code)
    else if routeType = "RURAL" then
      let s := min (max 40 (dataPoint.speed_kmph * 0.9 + rng.speedNoise * 15 - 5))
        routeRURAL.maxSpeed
      (s, 1200 + s * 25, dataPoint.engine_temp_c,
        if rng.dtcRoll < 0.02 then "P0171" else dataPoint.dtc_code)
    else
      (dataPoint.speed_kmph, dataPoint.engine_rpm, dataPoint.engine_temp_c,
        dataPoint.dtc_code)
  let speed := roundTo 2 branch.1
  let rpm : ℚ := (round branch.2.1 : ℤ)
  let temp := roundTo 1 branch.2.2.1
  let fuelConsumptionFactor : ℚ := if speed > 50 ∧ speed < 90 then 0.9 else 1.2
  let fuel :=
    max 0 (dataPoint.fuel_level_pct - (0.01 * fuelConsumptionFactor * (rpm / 2000)))
  let fuel := roundTo 2 fuel
  { dataPoint with
      speed_kmph := speed, engine_rpm := rpm, engine_temp_c := temp,
      fuel_level_pct := fuel, dtc_code := branch.2.2.2 }

/-- The `LocalDriveSimulator` static state touched by `startSimulation`
(local-drive-simulator.service.js lines 4-10): the active flag, the
accumulated sample sequence and the selected route. -/
structure SimState where
  isSimulating : Bool
  simulationData : List DataPoint
  currentRoute : Option String
  deriving Repr, DecidableEq

/-- The `{success, message, route?, estimatedDuration?}` result of
`startSimulation`. -/
structure StartResult where
  success : Bool
  message : String
  route : Option String
  estimatedDuration : Option ℚ
  deriving Repr, DecidableEq

/-- `LocalDriveSimulator.startSimulation`
(local-drive-simulator.service.js lines 60-132) as a transition on
`SimState`, returning the result object and the post-state.  The data-load
branch is parameterised by `dataAvailable` (synthetic data already loaded)
and `loadSucceeds` (the `loadSyntheticData` fallback succeeds).  The timer
registration, stream subscription and `CarDataService` side effects of the
success path do not touch the `SimState` fields and are elided. -/
def startSimulation (s : SimState) (routeType : String) (durationMinutes : ℚ)
    (dataAvailable loadSucceeds : Bool) : StartResult × SimState :=
  if s.isSimulating then
    ({ success := false, message := "A simulation is already running"
       route := none, estimatedDuration := none }, s)
  else if !dataAvailable && !loadSucceeds then
    ({ success := false, message := "Failed to load simulation data"
       route := none, estimatedDuration := none }, s)
  else
    match routes routeType with
    | none =>
        ({ success := false
           message :=
             "Invalid route type. Choose from: URBAN, HIGHWAY, MOUNTAIN, RURAL"
           route := none, estimatedDuration := none }, s)
    | some route =>
        ({ success := true
           message := "Started a " ++ route.name ++ " simulation for "
             ++ toString durationMinutes ++ " minutes"
           route := some route.name, estimatedDuration := some durationMinutes },
         { isSimulating := true, simulationData := []
           currentRoute := some routeType })

/-! ## Marketplace valuation (src/services/market-place.service.js) -/

/-- A `MarketplaceService.dataTypes` entry (market-place.service.js lines
12-48). -/
structure DataTypeInfo where
  name : String
  description : String
  privacyImpact : String
  baseValue : ℚ
  fields : List String
  deriving Repr, DecidableEq

/-- `MarketplaceService.dataTypes[dataType]`: `none` for an unknown key. -/
def dataTypes (dataType : String) : Option DataTypeInfo :=
  if dataType = "LOCATION" then
    some { name := "Location Data"
           description := "GPS coordinates and movement patterns"
           privacyImpact := "High", baseValue := 0.05
           fields := ["lat", "lon", "timestamp"] }
  else if dataType = "PERFORMANCE" then
    some { name := "Vehicle Performance"
           description := "Engine parameters, speed, and performance metrics"
           privacyImpact := "Low", baseValue := 0.03
           fields := ["speed_kmph", "engine_rpm", "timestamp"] }
  else if dataType = "DIAGNOSTIC" then
    some { name := "Diagnostic Information"
           description := "Engine health, error codes, and maintenance data"
           privacyImpact := "Low", baseValue := 0.07
           fields := ["engine_temp_c", "dtc_code", "timestamp"] }
  else if dataType = "FUEL" then
    some { name := "Fuel Consumption"
           description := "Fuel usage patterns and efficiency data"
           privacyImpact := "Medium", baseValue := 0.04
           fields := ["fuel_level_pct", "speed_kmph", "timestamp"] }
  else if dataType = "COMPLETE" then
    some { name := "Complete Vehicle Data"
           description := "Full vehicle dataset including all parameters"
           privacyImpact := "Very High", baseValue := 0.15
           fields := ["*"] }
  else none

/-- The LOCATION "urban data" test `String(x).split('.')[1].length > 5`:
the decimal expansion of `x` needs more than 5 fractional digits, i.e. `x`
is not an integer multiple of `10⁻⁵`. -/
def hasMoreThan5Decimals (q : ℚ) : Bool := (q * 10 ^ 5).den ≠ 1

/-- JS `Math.max(...l)` over a (guarded nonempty) spread list. -/
def listMax : List ℚ → ℚ
  | [] => 0
  | h :: t => t.foldl max h

/-- JS `Math.min(...l)` over a (guarded nonempty) spread list. -/
def listMin : List ℚ → ℚ
  | [] => 0
  | h :: t => t.foldl min h

/-- `MarketplaceService.estimateDataValue` (market-place.service.js lines
316-363): empty input returns 0 *before* the data-type lookup; an unknown
data type throws (`Except.error`); otherwise `count * baseValue` with the
category-specific multiplier, rounded to 4 decimals. -/
def estimateDataValue (dataPoints : List DataPoint)
    (dataType : String := "COMPLETE") : Except String ℚ :=
  if dataPoints.isEmpty then .ok 0
  else
    match dataTypes dataType with
    | none => .error ("Invalid data type: " ++ dataType)
    | some typeInfo =>
        let value : ℚ := dataPoints.length * typeInfo.baseValue
        let value :=
          if dataType = "LOCATION" then
            if dataPoints.any
                (fun p => hasMoreThan5Decimals p.lat && hasMoreThan5Decimals p.lon)
            then value * 1.3 else value
          else if dataType = "DIAGNOSTIC" then
            if dataPoints.any (fun p => p.dtc_code ≠ "" && jsTrim p.dtc_code ≠ "")
            then value * 1.5 else value
          else if dataType = "PERFORMANCE" then
            let speeds := dataPoints.map (·.speed_kmph)
            if listMax speeds - listMin speeds > 30 then value * 1.2 else value
          else if dataType = "COMPLETE" then
            if dataPoints.length > 100 then value * 1.1 else value
          else value
        .ok (roundTo 4 value)

/-! ## Concrete inputs used by closed instances and witnesses -/

/-- The round-trip sample of the spec: `dtc_code` P0420, speed 60,
RPM 2000. -/
def sampleC1 : DataPoint :=
  { speed_kmph := 60, engine_rpm := 2000, engine_temp_c := 90,
    fuel_level_pct := 50, lat := 19.4326, lon := -99.1332,
    dtc_code := "P0420", timestamp := "2024-01-01T00:00:00Z" }

/-- A sample with efficient-range speed and no DTC. -/
def sampleEfficient : DataPoint :=
  { speed_kmph := 50, engine_rpm := 2000, engine_temp_c := 88,
    fuel_level_pct := 40, lat := 0, lon := 0, dtc_code := "",
    timestamp := "2024-01-01T00:01:00Z" }

/-- A seed sample whose URBAN-adjusted speed lands at 45 km/h (inside
(40,90) but outside (50,90)). -/
def sampleC4 : DataPoint :=
  { speed_kmph := 75, engine_rpm := 0, engine_temp_c := 90,
    fuel_level_pct := 49.999, lat := 0, lon := 0, dtc_code := "",
    timestamp := "2024-01-01T00:02:00Z" }

/-- A concrete draw vector: speed noise 0.5 and DTC roll 0.5 (no DTC
injected). -/
def rngC4 : RouteRng :=
  { speedNoise := 0.5, dtcRoll := 0.5, dtcPick := 0, sinNow := 0 }

/-- A `SimState` with an active session and accumulated samples. -/
def runningState : SimState :=
  { isSimulating := true, simulationData := [sampleC1, sampleEfficient],
    currentRoute := some "URBAN" }

/-- Modelled from the spec wording under test for the fuel decrement:
`fuelFactor = 0.9` if adjusted speed is strictly between 40 and 90 km/h,
else 1.2; fuel decremented by `0.01 * fuelFactor * (rpm/2000)` from the
input fuel, clamped at 0 (and rounded to 2 decimals like the
transformation).  Written from the claim wording for comparison with
`modifyDataForRoute`. -/
def specFuelAfterTick (fuelBefore adjSpeed adjRpm : ℚ) : ℚ :=
  let fuelFactor : ℚ := if 40 < adjSpeed ∧ adjSpeed < 90 then 0.9 else 1.2
  roundTo 2 (max 0 (fuelBefore - (0.01 * fuelFactor * (adjRpm / 2000))))

/-! ## Helper lemmas -/

/-- Rounding to `d` decimals is monotone. -/
lemma roundTo_mono (d : ℕ) {x y : ℚ} (h : x ≤ y) : roundTo d x ≤ roundTo d y := by
  unfold roundTo
  have hp : (0:ℚ) < 10 ^ d := pow_pos (by norm_num) d
  have hr : round (x * 10 ^ d) ≤ round (y * 10 ^ d) := by
    rw [round_eq, round_eq]
    exact Int.floor_le_floor (by nlinarith)
  exact div_le_div_of_nonneg_right (by exact_mod_cast hr) hp.le

/-- Rounding a nonnegative rational stays nonnegative. -/
lemma roundTo_nonneg (d : ℕ) {x : ℚ} (h : 0 ≤ x) : 0 ≤ roundTo d x := by
  have h2 := roundTo_mono d h
  have h0 : roundTo d 0 = 0 := by unfold roundTo; norm_num
  linarith [h0 ▸ h2]

/-- Every successful Diagnostic Catalog lookup carries one of the three
reward impacts -15, -10, -25. -/
lemma getDiagnosticInfo_rewardImpact {c : String} {i : DtcInfo}
    (h : getDiagnosticInfo c = some i) :
    i.rewardImpact = -15 ∨ i.rewardImpact = -10 ∨ i.rewardImpact = -25 := by
  unfold getDiagnosticInfo at h
  split_ifs at h <;> simp only [Option.some.injEq, reduceCtorEq] at h <;>
    subst h <;> norm_num

/-- The JS truthiness guard on the DTC string collapses to nonemptiness of
its trim. -/
lemma dtcCond_iff (s : String) : (s ≠ "" ∧ jsTrim s ≠ "") ↔ jsTrim s ≠ "" := by
  constructor
  · exact fun h => h.2
  · intro h
    refine ⟨?_, h⟩
    intro hs
    subst hs
    exact h rfl

/-- Closed form of the per-point reward: base 0.01 times the three
multipliers of the spec. -/
lemma getDataPointRewardValue_eq (p : DataPoint) :
    getDataPointRewardValue p =
      roundTo 4 (0.01
        * (if 40 ≤ p.speed_kmph ∧ p.speed_kmph ≤ 80 then 1.2 else 1)
        * (if 1500 ≤ p.engine_rpm ∧ p.engine_rpm ≤ 2500 then 1.15 else 1)
        * (if jsTrim p.dtc_code ≠ "" then
             match getDiagnosticInfo p.dtc_code with
             | some info => 1 + info.rewardImpact / 100
             | none => 1
           else 1)) := by
  unfold getDataPointRewardValue
  refine congrArg (roundTo 4) ?_
  simp only [dtcCond_iff]
  rcases hd : getDiagnosticInfo p.dtc_code with _ | info <;> simp only [hd]
  · split_ifs <;> ring
  · have himp : info.rewardImpact ≠ 0 := by
      rcases getDiagnosticInfo_rewardImpact hd with h | h | h <;> rw [h] <;> norm_num
    simp only [himp, ne_eq, not_false_eq_true, if_true]
    split_ifs <;> ring

/-- The per-point reward is nonnegative (all multipliers are positive). -/
lemma getDataPointRewardValue_nonneg (p : DataPoint) :
    0 ≤ getDataPointRewardValue p := by
  rw [getDataPointRewardValue_eq]
  apply roundTo_nonneg
  have h1 : (0:ℚ) ≤ (if 40 ≤ p.speed_kmph ∧ p.speed_kmph ≤ 80 then (1.2:ℚ) else 1) := by
    split_ifs <;> norm_num
  have h2 : (0:ℚ) ≤ (if 1500 ≤ p.engine_rpm ∧ p.engine_rpm ≤ 2500 then (1.15:ℚ) else 1) := by
    split_ifs <;> norm_num
  have h3 : (0:ℚ) ≤ (if jsTrim p.dtc_code ≠ "" then
      match getDiagnosticInfo p.dtc_code with
      | some info => 1 + info.rewardImpact / 100
      | none => 1
    else 1) := by
    split_ifs
    · rcases hd : getDiagnosticInfo p.dtc_code with _ | info <;> simp only [hd]
      · norm_num
      · rcases getDiagnosticInfo_rewardImpact hd with h | h | h <;> rw [h] <;> norm_num
    · norm_num
  exact mul_nonneg (mul_nonneg (mul_nonneg (by norm_num) h1) h2) h3

/-- Folding addition of a projection equals the sum of the mapped list. -/
lemma foldl_add_const (f : DataPoint → ℚ) (l : List DataPoint) (a : ℚ) :
    l.foldl (fun acc p => acc + f p) a = a + (l.map f).sum := by
  induction l generalizing a with
  | nil => simp
  | cons h t ih => simp only [List.foldl_cons, List.map_cons, List.sum_cons, ih]; ring

/-- Closed form of the batch reward. -/
lemma getDataBatchRewardValue_eq (ps : List DataPoint) :
    getDataBatchRewardValue ps =
      if ps.length = 0 then 0
      else roundTo 4 ((ps.map getDataPointRewardValue).sum *
        (if ps.length > 10 then 1.1 else 1)) := by
  unfold getDataBatchRewardValue
  by_cases hps : ps.isEmpty
  · rw [List.isEmpty_iff] at hps
    subst hps
    simp
  · have hlen : ps.length ≠ 0 := by
      rw [List.isEmpty_iff] at hps
      simpa using hps
    rw [if_neg (by simpa using hps), if_neg hlen, foldl_add_const, zero_add]
    split_ifs with h10
    · rfl
    · rw [mul_one]

/-- The batch reward is nonnegative. -/
lemma getDataBatchRewardValue_nonneg (ps : List DataPoint) :
    0 ≤ getDataBatchRewardValue ps := by
  have hsum : 0 ≤ (ps.map getDataPointRewardValue).sum := by
    apply List.sum_nonneg
    intro x hx
    obtain ⟨p, _, rfl⟩ := List.mem_map.mp hx
    exact getDataPointRewardValue_nonneg p
  rw [getDataBatchRewardValue_eq]
  split_ifs with h h10
  · exact le_refl 0
  · exact roundTo_nonneg 4 (mul_nonneg hsum (by norm_num))
  · exact roundTo_nonneg 4 (mul_nonneg hsum (by norm_num))

/-- Length of a trailing window. -/
lemma takeLast_length (t : ℕ) (l : List DataPoint) :
    (takeLast t l).length = min t l.length := by
  simp only [takeLast, List.length_drop]
  omega

/-- A window at least as wide as the list returns the list. -/
lemma takeLast_of_le {t : ℕ} {l : List DataPoint} (h : l.length ≤ t) :
    takeLast t l = l := by
  simp [takeLast, Nat.sub_eq_zero_of_le h]

/-- Taking the trailing window twice is the same as taking it once. -/
lemma takeLast_takeLast (t : ℕ) (l : List DataPoint) :
    takeLast t (takeLast t l) = takeLast t l :=
  takeLast_of_le (by rw [takeLast_length]; omega)

/-- Truncating to the last `min 60 n` elements is truncating to the last
60. -/
lemma takeLast_min (l : List DataPoint) :
    takeLast (min 60 l.length) l = takeLast 60 l := by
  unfold takeLast
  congr 1
  omega

/-! ## Claim theorems -/

/-- C1: for every telemetry sample, `getDataPointRewardValue` is the base
0.01 times 1.2 when speed lies in [40,80], times 1.15 when RPM lies in
[1500,2500], and, when a nonempty DTC code is present and found in the
Diagnostic Catalog, times `(1 + rewardImpact/100)`, rounded to 4 decimals;
on the sample with dtc P0420, speed 60, RPM 2000 it returns
`0.01 * 1.2 * 1.15 * 0.85` rounded to 4 decimals, that is 0.0117, and the
P0420 catalog entry has reward impact -15. -/
theorem pointReward_spec :
    (∀ p : DataPoint,
      getDataPointRewardValue p =
        roundTo 4 (0.01
          * (if 40 ≤ p.speed_kmph ∧ p.speed_kmph ≤ 80 then 1.2 else 1)
          * (if 1500 ≤ p.engine_rpm ∧ p.engine_rpm ≤ 2500 then 1.15 else 1)
          * (if jsTrim p.dtc_code ≠ "" then
               match getDiagnosticInfo p.dtc_code with
               | some info => 1 + info.rewardImpact / 100
               | none => 1
             else 1))) ∧
    getDataPointRewardValue sampleC1 = 0.0117 ∧
    roundTo 4 (0.01 * 1.2 * 1.15 * 0.85) = 0.0117 ∧
    (getDiagnosticInfo "P0420").map DtcInfo.rewardImpact = some (-15) := by
  refine ⟨getDataPointRewardValue_eq, ?_, ?_, ?_⟩
  · simp +decide [getDataPointRewardValue, sampleC1, getDiagnosticInfo, jsTrim]
    norm_num [roundTo, round_eq]
  · norm_num [roundTo, round_eq]
  · norm_num [getDiagnosticInfo]

/-- C2: for every list of samples, `getDataBatchRewardValue` returns 0 on
the empty list and otherwise the sum of the per-point rewards, times 1.1
exactly when the sample count exceeds 10, rounded to 4 decimals. -/
theorem batchReward_spec (ps : List DataPoint) :
    getDataBatchRewardValue ps =
      if ps.length = 0 then 0
      else roundTo 4 ((ps.map getDataPointRewardValue).sum *
        (if ps.length > 10 then 1.1 else 1)) :=
  getDataBatchRewardValue_eq ps

/-- C3: for every list of samples and window size 60,
`getVehicleEfficiencyScore` computes the same value on the full list as on
its suffix of the last `min 60 n` elements — only the trailing window
affects the result. -/
theorem efficiencyScore_window (ps : List DataPoint) :
    getVehicleEfficiencyScore ps 60 =
      getVehicleEfficiencyScore (takeLast (min 60 ps.length) ps) 60 := by
  rw [takeLast_min]
  unfold getVehicleEfficiencyScore
  by_cases h5 : ps.length < 5
  · have h5' : (takeLast 60 ps).length < 5 := by
      rw [takeLast_length]
      omega
    rw [if_pos h5, if_pos h5']
  · have h5' : ¬ (takeLast 60 ps).length < 5 := by
      rw [takeLast_length]
      omega
    rw [if_neg h5, if_neg h5', takeLast_takeLast]

/-- C4 counterexample: on a seed sample with speed 75, fuel 49.999 and a
speed-noise draw of 0.5, the URBAN transformation yields adjusted speed 45
(strictly between 40 and 90) and RPM 2350, yet the resulting fuel level is
49.98, while the fuel formula worded by the claim (factor 0.9 for adjusted
speed strictly between 40 and 90) would give 49.99 — so the claimed
40-km/h lower bound for the 0.9 factor is wrong. -/
theorem fuelFactor_midrange_counterexample :
    (modifyDataForRoute sampleC4 "URBAN" rngC4).speed_kmph = 45 ∧
    (modifyDataForRoute sampleC4 "URBAN" rngC4).engine_rpm = 2350 ∧
    (modifyDataForRoute sampleC4 "URBAN" rngC4).fuel_level_pct = 49.98 ∧
    specFuelAfterTick sampleC4.fuel_level_pct 45 2350 = 49.99 ∧
    (49.98 : ℚ) ≠ 49.99 := by
  refine ⟨?_, ?_, ?_, ?_, by norm_num⟩ <;>
    simp +decide [modifyDataForRoute, specFuelAfterTick, sampleC4, rngC4,
      routeURBAN] <;>
    norm_num [roundTo, round_eq]

/-- C4 as amended: for every input sample, route type and random draw, the
transformation decrements fuel from the input fuel level by
`0.01 * fuelFactor * (rpm/2000)` with the adjusted (rounded) RPM, where
`fuelFactor` is 0.9 when the adjusted speed is strictly between 50 and 90
km/h and 1.2 otherwise, the result clamped at 0 (and rounded to 2
decimals). -/
theorem fuel_decrement_spec (p : DataPoint) (rt : String) (rng : RouteRng) :
    (modifyDataForRoute p rt rng).fuel_level_pct =
      roundTo 2 (max 0 (p.fuel_level_pct -
        (0.01 * (if 50 < (modifyDataForRoute p rt rng).speed_kmph ∧
                    (modifyDataForRoute p rt rng).speed_kmph < 90 then 0.9 else 1.2)
          * ((modifyDataForRoute p rt rng).engine_rpm / 2000)))) := rfl

/-- C5: for every input sample and every random draw, the URBAN
transformation produces a speed in the closed interval [15, 60] (clamp
floor 15, ceiling the URBAN maxSpeed 60), including after the rounding to
2 decimals. -/
theorem urban_speed_in_range (p : DataPoint) (rng : RouteRng) :
    15 ≤ (modifyDataForRoute p "URBAN" rng).speed_kmph ∧
    (modifyDataForRoute p "URBAN" rng).speed_kmph ≤ 60 := by
  have hs : (modifyDataForRoute p "URBAN" rng).speed_kmph =
      roundTo 2 (min (max 15 (p.speed_kmph * 0.6 + rng.speedNoise * 20 - 10))
        routeURBAN.maxSpeed) := rfl
  have hmax : routeURBAN.maxSpeed = 60 := rfl
  rw [hs, hmax]
  have h15 : roundTo 2 (15:ℚ) = 15 := by norm_num [roundTo, round_eq]
  have h60 : roundTo 2 (60:ℚ) = 60 := by norm_num [roundTo, round_eq]
  constructor
  · calc (15:ℚ) = roundTo 2 15 := h15.symm
      _ ≤ _ := roundTo_mono 2 (le_min (le_max_left _ _) (by norm_num))
  · calc roundTo 2 _ ≤ roundTo 2 60 := roundTo_mono 2 (min_le_right _ _)
      _ = 60 := h60

/-- C6: starting a simulation while one is already running returns
`success = false` and leaves the state — active flag, accumulated samples
and current route — entirely unchanged. -/
theorem startSimulation_already_running (s : SimState) (rt : String)
    (d : ℚ) (dataAvailable loadSucceeds : Bool)
    (h : s.isSimulating = true) :
    (startSimulation s rt d dataAvailable loadSucceeds).1.success = false ∧
    (startSimulation s rt d dataAvailable loadSucceeds).2 = s := by
  unfold startSimulation
  rw [if_pos h]
  exact ⟨rfl, rfl⟩

/-- C6 witness: the guard theorem applied to a concrete running state. -/
theorem startSimulation_already_running_witness :
    runningState.isSimulating = true ∧
    (startSimulation runningState "HIGHWAY" 10 true true).1.success = false ∧
    (startSimulation runningState "HIGHWAY" 10 true true).2 = runningState :=
  ⟨rfl, startSimulation_already_running runningState "HIGHWAY" 10 true true rfl⟩

/-- C7 counterexample: `estimateDataValue` on the *empty* list with an
unknown category returns `ok 0` instead of throwing — the emptiness check
precedes the category lookup, so the claim "throws for every list" is
false at the empty list. -/
theorem estimateDataValue_empty_unknown_ok :
    estimateDataValue [] "SOCIAL" = Except.ok 0 ∧
    dataTypes "SOCIAL" = none := ⟨rfl, rfl⟩

/-- C7 as amended: `estimateDataValue` on a *nonempty* list with a
category outside the data-type table throws (returns an error), and on a
known category it never throws for any list. -/
theorem estimateDataValue_error_spec (ps : List DataPoint) (c : String) :
    (ps ≠ [] → dataTypes c = none →
      estimateDataValue ps c = Except.error ("Invalid data type: " ++ c)) ∧
    (dataTypes c ≠ none → ∃ v, estimateDataValue ps c = Except.ok v) := by
  constructor
  · intro hps hc
    unfold estimateDataValue
    rw [if_neg (by simpa using hps), hc]
  · intro hc
    unfold estimateDataValue
    by_cases hps : ps.isEmpty
    · rw [if_pos hps]
      exact ⟨0, rfl⟩
    · rw [if_neg hps]
      rcases hd : dataTypes c with _ | info
      · exact absurd hd hc
      · exact ⟨_, rfl⟩

/-- C7 witness: the amended theorem applied to a concrete nonempty list
with the unknown category SOCIAL and the known category COMPLETE. -/
theorem estimateDataValue_error_spec_witness :
    (([sampleC1] : List DataPoint) ≠ [] ∧ dataTypes "SOCIAL" = none ∧
      estimateDataValue [sampleC1] "SOCIAL" =
        Except.error ("Invalid data type: " ++ "SOCIAL")) ∧
    (dataTypes "COMPLETE" ≠ none ∧
      ∃ v, estimateDataValue [sampleC1] "COMPLETE" = Except.ok v) :=
  ⟨⟨by simp, rfl, (estimateDataValue_error_spec [sampleC1] "SOCIAL").1 (by simp) rfl⟩,
   ⟨by simp [dataTypes], (estimateDataValue_error_spec [sampleC1] "COMPLETE").2
      (by simp [dataTypes])⟩⟩

/-- C8: `estimateDataValue` with category COMPLETE equals
`count * 0.15` times 1.1 exactly when the count exceeds 100, rounded to 4
decimals; on 101 identical samples it returns `101 * 0.15 * 1.1 = 16.665`. -/
theorem estimateValue_complete_spec :
    (∀ ps : List DataPoint,
      estimateDataValue ps "COMPLETE" =
        Except.ok (roundTo 4 ((ps.length : ℚ) * 0.15 *
          (if ps.length > 100 then 1.1 else 1)))) ∧
    estimateDataValue (List.replicate 101 sampleC1) "COMPLETE" =
      Except.ok 16.665 ∧
    (101 : ℚ) * 0.15 * 1.1 = 16.665 := by
  have hall : ∀ ps : List DataPoint,
      estimateDataValue ps "COMPLETE" =
        Except.ok (roundTo 4 ((ps.length : ℚ) * 0.15 *
          (if ps.length > 100 then 1.1 else 1))) := by
    intro ps
    by_cases hps : ps.isEmpty
    · obtain rfl : ps = [] := List.isEmpty_iff.mp hps
      have h0 : estimateDataValue [] "COMPLETE" = Except.ok 0 := rfl
      rw [h0]
      norm_num [roundTo]
    · unfold estimateDataValue
      rw [if_neg hps]
      simp +decide [dataTypes]
  refine ⟨hall, ?_, by norm_num⟩
  rw [hall]
  have hlen : (List.replicate 101 sampleC1).length = 101 := by simp
  rw [hlen]
  norm_num [roundTo, round_eq]

/-- C9: the batch reward is monotonically non-decreasing under appending
samples with speed in the efficient range [40,80] and no DTC code. -/
theorem batchReward_mono (xs ys : List DataPoint)
    (_hys : ∀ y ∈ ys,
      (40 ≤ y.speed_kmph ∧ y.speed_kmph ≤ 80) ∧ jsTrim y.dtc_code = "") :
    getDataBatchRewardValue xs ≤ getDataBatchRewardValue (xs ++ ys) := by
  rcases eq_or_ne xs [] with rfl | hxs
  · simpa using getDataBatchRewardValue_nonneg ys
  · have hx0 : ¬ xs.length = 0 := by simpa [List.length_eq_zero] using hxs
    have hxy0 : ¬ (xs ++ ys).length = 0 := by
      simp only [List.length_append]
      omega
    rw [getDataBatchRewardValue_eq xs, getDataBatchRewardValue_eq (xs ++ ys),
      if_neg hx0, if_neg hxy0]
    apply roundTo_mono
    have hnn : ∀ l : List DataPoint, 0 ≤ (l.map getDataPointRewardValue).sum := by
      intro l
      apply List.sum_nonneg
      intro x hx
      obtain ⟨p, _, rfl⟩ := List.mem_map.mp hx
      exact getDataPointRewardValue_nonneg p
    have hsum : (xs.map getDataPointRewardValue).sum ≤
        ((xs ++ ys).map getDataPointRewardValue).sum := by
      rw [List.map_append, List.sum_append]
      have := hnn ys
      linarith
    have hmul : (if xs.length > 10 then (1.1:ℚ) else 1) ≤
        (if (xs ++ ys).length > 10 then (1.1:ℚ) else 1) := by
      rw [List.length_append]
      split_ifs with hA hB hB
      · exact le_refl _
      · exact absurd (by omega) hB
      · norm_num
      · exact le_refl _
    have hm0 : (0:ℚ) ≤ (if xs.length > 10 then (1.1:ℚ) else 1) := by
      split_ifs <;> norm_num
    exact mul_le_mul hsum hmul hm0 (hnn _)

/-- C9 witness: the monotonicity theorem applied to a concrete base list
and a concrete appended efficient-speed, DTC-free sample. -/
theorem batchReward_mono_witness :
    (∀ y ∈ [sampleEfficient],
      (40 ≤ y.speed_kmph ∧ y.speed_kmph ≤ 80) ∧ jsTrim y.dtc_code = "") ∧
    getDataBatchRewardValue [sampleC1] ≤
      getDataBatchRewardValue ([sampleC1] ++ [sampleEfficient]) := by
  have hy : ∀ y ∈ [sampleEfficient],
      (40 ≤ y.speed_kmph ∧ y.speed_kmph ≤ 80) ∧ jsTrim y.dtc_code = "" := by
    intro y hy
    rw [List.mem_singleton] at hy
    subst hy
    exact ⟨⟨by norm_num [sampleEfficient], by norm_num [sampleEfficient]⟩, by decide⟩
  exact ⟨hy, batchReward_mono [sampleC1] [sampleEfficient] hy⟩

/-- C10: for every input sample, route type and random draw, the route
transformation leaves lat, lon and timestamp equal to those of the input
(the transformation is a pure function of a clone: only speed, RPM,
temperature, fuel and the DTC field are rewritten). -/
theorem modifyDataForRoute_frame (p : DataPoint) (rt : String) (rng : RouteRng) :
    (modifyDataForRoute p rt rng).lat = p.lat ∧
    (modifyDataForRoute p rt rng).lon = p.lon ∧
    (modifyDataForRoute p rt rng).timestamp = p.timestamp :=
  ⟨rfl, rfl, rfl⟩

end DriveLedger
